import Mathlib

/-!
A shallow embedding of the admission webhook in `webhook/webhook.go` of the
cm-injector-operator repository, together with theorems checking the
specification's claims about it.

The embedding models:
  * the data (Pod, CMTemplate, CMState, audience entries, admission
    requests/responses) as Lean structures;
  * the cluster object store (`hook.Client`) as a record of oracles giving
    the outcome of each Get/Create/Patch call;
  * the handlers `handleInner`, `handlePodCreate`, `handlePodDelete` and
    `Handle` as pure functions that additionally return the ordered list of
    store operations (reads and writes) they perform;
  * the helpers `generateName`, `generateCMState`, `findIndex` directly.

Go map reads with a missing key yield the zero value; annotations are
modelled as association lists with a read that defaults to `""`.
`strings.ToLower` / `strings.ReplaceAll(_, "_", "-")` are modelled
character-wise (`Char.toLower` is the ASCII lowering Go performs on ASCII
input, and the pattern and replacement are single ASCII characters).
-/

/-- One entry of a CMState audience: `cachev1alpha1.CMAudience`. -/
structure CMAudience where
  kind : String
  name : String
deriving DecidableEq, Repr

/-- The CMState custom resource, flattened: `name`, `nspace` (Namespace) and
`labels` are its ObjectMeta, `audience` and `cmTemplate` its Spec
(`Spec.Audience`, `Spec.CMTemplate`). -/
structure CMState where
  apiVersion : String := ""
  kind : String := ""
  name : String := ""
  nspace : String := ""
  labels : List (String × String) := []
  audience : List CMAudience := []
  cmTemplate : String := ""
deriving DecidableEq, Repr

/-- The zero value of the Go struct `cachev1alpha1.CMState`, the state of the
variable `cmState` when the Get found nothing. -/
def emptyCMState : CMState := {}

/-- The CMTemplate custom resource: its cluster-scoped name and the
`Spec.Template.AnnotationReplace` map. -/
structure CMTemplate where
  name : String := ""
  annotationReplace : List (String × String) := []
deriving DecidableEq, Repr

/-- A Pod: name, generateName, namespace (`nspace`) and its annotations map. -/
structure Pod where
  name : String := ""
  generateName : String := ""
  nspace : String := ""
  annotations : List (String × String) := []
deriving DecidableEq, Repr

/-- Go map read `m[k]`: the stored value, or the zero value `""` when the key
is absent. -/
def annGet (anns : List (String × String)) (key : String) : String :=
  match anns.lookup key with
  | some v => v
  | none => ""

/-- Go map write `m[k] = v`: overwrite the entry for `k`, or add one. -/
def annSet : List (String × String) → String → String → List (String × String)
  | [], k, v => [(k, v)]
  | (k0, v0) :: rest, k, v =>
      if k0 = k then (k, v) :: rest else (k0, v0) :: annSet rest k v

/-- The admission operation of a request (`req.Operation`). -/
inductive Operation where
  | create
  | delete
  | update
  | connect
deriving DecidableEq, Repr

/-- An admission request: the operation, the raw bytes of the embedded object
(`req.Object.Raw`), and the outcome of `decoder.Decode(req, pod)` —
`decodedPod = none` models a decode failure whose error text is
`decodeErrMsg`. -/
structure Request where
  operation : Operation
  objectRaw : String := ""
  decodedPod : Option Pod := none
  decodeErrMsg : String := ""
deriving DecidableEq, Repr

/-- An admission response, one constructor per way the webhook builds one:
`admission.Allowed`, `admission.Denied`, `admission.Errored` and
`admission.PatchResponseFromRaw(req.Object.Raw, pData)` (the last stores the
mutated Pod whose marshalling is `pData`). -/
inductive Response where
  | allowed (reason : String)
  | denied (reason : String)
  | errored (code : Nat) (msg : String)
  | patchFromRaw (raw : String) (mutated : Pod)
deriving DecidableEq, Repr

/-- Whether a response admits the operation: `Allowed` and
`PatchResponseFromRaw` responses do, `Denied` and `Errored` do not. -/
def Response.isAllowed : Response → Bool
  | .allowed _ => true
  | .patchFromRaw _ _ => true
  | .denied _ => false
  | .errored _ _ => false

/-- The outcome of a `Client.Get`: the object, a NotFound error (with the
error text, for wrapping), or any other error. `apierrors.IsNotFound`
distinguishes `notFound` from `errored`. -/
inductive GetResult (α : Type) where
  | found (obj : α)
  | notFound (msg : String)
  | errored (msg : String)
deriving DecidableEq, Repr

/-- The cluster object store (`hook.Client`) as response oracles: what each
Get returns, and whether each Create/Patch fails (`some errText`) or
succeeds (`none`). -/
structure Store where
  getCMState : String → String → GetResult CMState
  getCMTemplate : String → GetResult CMTemplate
  createCMState : CMState → Option String
  patchCMState : CMState → Option String

/-- One store operation performed by a handler, in order. -/
inductive Effect where
  | getState (ns name : String)
  | getTemplate (name : String)
  | createState (st : CMState)
  | patchState (st : CMState)
deriving DecidableEq, Repr

/-- Store operations that mutate the store (Create or Patch). -/
def Effect.isWrite : Effect → Bool
  | .createState _ => true
  | .patchState _ => true
  | .getState _ _ => false
  | .getTemplate _ => false

/-- `errors.Wrap(err, msg)`: the wrapped error prints as `msg ++ ": " ++ err`. -/
def wrap (msg cause : String) : String := msg ++ ": " ++ cause

/-- `strings.ReplaceAll(s, "_", "-")` acting on one character. -/
def replChar (c : Char) : Char := if c = '_' then '-' else c

/-- `strings.ReplaceAll(s, "_", "-")`: pattern and replacement are single
characters, so it is the character-wise map. -/
def stringsReplaceAll (s : String) : String := String.mk (s.data.map replChar)

/-- `strings.ToLower(s)` character-wise; `Char.toLower` lowers exactly the
ASCII uppercase letters, as Go does on ASCII input. -/
def stringsToLower (s : String) : String := String.mk (s.data.map Char.toLower)

/-- `generateName` (webhook.go:192-194):
`strings.ToLower(strings.ReplaceAll("cmstate-" ++ name, "_", "-"))`. -/
def generateName (cmTemplateName : String) : String :=
  stringsToLower (stringsReplaceAll ("cmstate-" ++ cmTemplateName))

/-- `findIndex` (webhook.go:196-203): index of the first audience entry whose
name is `name`, or `-1`. The auxiliary carries the running index `i`. -/
def findIndexAux (name : String) : List CMAudience → Nat → Int
  | [], _ => -1
  | aud :: rest, i => if aud.name = name then Int.ofNat i else findIndexAux name rest (i + 1)

/-- `findIndex(slice, name)` from webhook.go:196-203. -/
def findIndex (slice : List CMAudience) (name : String) : Int :=
  findIndexAux name slice 0

/-- `generateCMState` (webhook.go:158-190): labels copy the Pod's annotation
value at each key of the template's AnnotationReplace map; the audience is
the single entry `{Kind: "Pod", Name: podName}` with `podName` the Pod's
name, or its generateName when the name is empty. -/
def generateCMState (cmTemplate : CMTemplate) (pod : Pod) : CMState :=
  let labels := cmTemplate.annotationReplace.map (fun kv => (kv.1, annGet pod.annotations kv.1))
  let podName := if pod.name = "" then pod.generateName else pod.name
  { apiVersion := "cache.spices.dev/v1alpha1"
    kind := "CMState"
    name := generateName cmTemplate.name
    nspace := pod.nspace
    labels := labels
    audience := [{ kind := "Pod", name := podName }]
    cmTemplate := cmTemplate.name }

/-- The identifying name the delete path searches for (webhook.go:111-114):
`podName := pod.GetName(); if pod.GetGenerateName() != "" { podName = pod.GetGenerateName() }`. -/
def deletePodName (pod : Pod) : String :=
  if pod.generateName ≠ "" then pod.generateName else pod.name

/-- `handlePodDelete` (webhook.go:106-131). Returns the `(resp, err)` pair of
the Go function together with the list of store writes it performed. -/
def handlePodDelete (store : Store) (cmState : CMState) (pod : Pod) :
    (Option Response × Option String) × List Effect :=
  if cmState.name = "" then
    ((some (.allowed "skipping cmstate patch due to missing cmstate"), none), [])
  else
    let podName := deletePodName pod
    let index := findIndex cmState.audience podName
    if index = -1 then
      ((some (.allowed "skipping cmstate patch due to pod not in audience"), none), [])
    else
      let newState : CMState :=
        { cmState with audience := cmState.audience.take index.toNat ++ cmState.audience.drop (index.toNat + 1) }
      match store.patchCMState newState with
      | some e => ((some (.denied "patching cmstate has resulted in an error"), some e), [.patchState newState])
      | none => ((some (.allowed "cmstate has been patched, no need to mutate pod"), none), [.patchState newState])

/-- `handlePodCreate` (webhook.go:133-155). When no state exists
(`cmState.Name == ""`) it creates `generateCMState(cmTemplate, pod)` and on
failure returns the Denied response together with the error; in every
successful branch it sets the tracking annotation to the state resource's
name and answers `PatchResponseFromRaw(req.Object.Raw, marshal(pod))`.
(`json.Marshal` of a Pod cannot fail, so that error branch has no case
here.) -/
def handlePodCreate (store : Store) (req : Request) (cmState : CMState)
    (cmTemplate : CMTemplate) (pod : Pod) :
    (Option Response × Option String) × List Effect :=
  if cmState.name = "" then
    let newState := generateCMState cmTemplate pod
    match store.createCMState newState with
    | some e =>
        ((some (.denied "creating cmstate has resulted in an error"), some e), [.createState newState])
    | none =>
        let pod2 := { pod with annotations := annSet pod.annotations "vault.hashicorp.com/agent-configmap" newState.name }
        ((some (.patchFromRaw req.objectRaw pod2), none), [.createState newState])
  else
    let pod2 := { pod with annotations := annSet pod.annotations "vault.hashicorp.com/agent-configmap" cmState.name }
    ((some (.patchFromRaw req.objectRaw pod2), none), [])

/-- `handleInner` (webhook.go:52-104): decode the Pod; if it has a non-empty
template annotation, Get the CMState at `(pod.Namespace, generateName(ann))`
(NotFound tolerated, the zero CMState is kept), Get the CMTemplate at the
annotation value (NotFound is an error like any other), then dispatch on the
operation; any other operation, and a Pod without the annotation, fall
through to the final Allowed response. -/
def handleInner (store : Store) (req : Request) :
    (Option Response × Option String) × List Effect :=
  match req.decodedPod with
  | none => ((none, some (wrap "error decoding request into Pod" req.decodeErrMsg)), [])
  | some pod =>
    if annGet pod.annotations "cache.spices.dev/cmtemplate" ≠ "" then
      let tmplAnn := annGet pod.annotations "cache.spices.dev/cmtemplate"
      let crdName := generateName tmplAnn
      match store.getCMState pod.nspace crdName with
      | .errored e =>
          ((none, some (wrap "fetching cmstate has resulted in an error" e)),
           [.getState pod.nspace crdName])
      | stateRes =>
          let cmState : CMState :=
            match stateRes with
            | .found st => st
            | _ => emptyCMState
          match store.getCMTemplate tmplAnn with
          | .errored e =>
              ((none, some (wrap "fetching cmtemplate has resulted in an error" e)),
               [.getState pod.nspace crdName, .getTemplate tmplAnn])
          | .notFound e =>
              ((none, some (wrap "fetching cmtemplate has resulted in an error" e)),
               [.getState pod.nspace crdName, .getTemplate tmplAnn])
          | .found cmTemplate =>
              if req.operation = .create then
                let r := handlePodCreate store req cmState cmTemplate pod
                (r.1, [.getState pod.nspace crdName, .getTemplate tmplAnn] ++ r.2)
              else if req.operation = .delete then
                let r := handlePodDelete store cmState pod
                (r.1, [.getState pod.nspace crdName, .getTemplate tmplAnn] ++ r.2)
              else
                ((some (.allowed "skipping cmstate check due to missing annotation"), none),
                 [.getState pod.nspace crdName, .getTemplate tmplAnn])
    else
      ((some (.allowed "skipping cmstate check due to missing annotation"), none), [])

/-- `Handle` (webhook.go:44-50): any non-nil error from `handleInner` becomes
`admission.Errored(http.StatusInternalServerError, err)`; otherwise the
handler's response is returned. (`handleInner` never returns a nil response
with a nil error, so the last case is unreachable.) -/
def Handle (store : Store) (req : Request) : Response :=
  match handleInner store req with
  | ((_, some e), _) => .errored 500 e
  | ((some r, none), _) => r
  | ((none, none), _) => .errored 500 ""

/-- The store writes `Handle` performs on a request. -/
def handleWrites (store : Store) (req : Request) : List Effect :=
  ((handleInner store req).2).filter Effect.isWrite

/-- Whether a response is a `Denied` response. -/
def Response.isDenied : Response → Bool
  | .denied _ => true
  | .allowed _ => false
  | .errored _ _ => false
  | .patchFromRaw _ _ => false

/-- Modelled from the spec: one character of the class `[a-z0-9-]`
(code points 97-122, 48-57, or the hyphen). -/
def isPatternChar (c : Char) : Bool :=
  (97 ≤ c.toNat && c.toNat ≤ 122) || (48 ≤ c.toNat && c.toNat ≤ 57) || c = '-'

/-- Modelled from the spec: whether a string matches `cmstate-[a-z0-9-]+`
(the literal prefix followed by at least one character of the class). -/
def matchesPattern (s : String) : Bool :=
  (s.data.take 8 == "cmstate-".data) && decide (8 < s.data.length) &&
    (s.data.drop 8).all isPatternChar

/-- Test fixture: the Pod of the spec's end-to-end example. -/
def podApp1 : Pod :=
  { name := "app-1", nspace := "ns", annotations := [("cache.spices.dev/cmtemplate", "Foo_Bar")] }

/-- Test fixture: a Pod with the template annotation whose name is in no audience. -/
def podOther : Pod :=
  { name := "other-pod", nspace := "ns", annotations := [("cache.spices.dev/cmtemplate", "Foo_Bar")] }

/-- Test fixture: a Pod without the template annotation. -/
def podPlain : Pod := { name := "plain-pod", nspace := "ns" }

/-- Test fixture: the template named by the example Pods' annotation. -/
def tmplFooBar : CMTemplate := { name := "Foo_Bar" }

/-- Test fixture: an existing CMState whose audience is exactly the example Pod. -/
def stateApp1 : CMState :=
  { name := "cmstate-foo-bar", nspace := "ns",
    audience := [{ kind := "Pod", name := "app-1" }], cmTemplate := "Foo_Bar" }

/-- Test fixture: a create request carrying the example Pod. -/
def reqCreateApp1 : Request :=
  { operation := .create, objectRaw := "rawApp1", decodedPod := some podApp1 }

/-- Test fixture: a delete request carrying the example Pod. -/
def reqDeleteApp1 : Request := { operation := .delete, decodedPod := some podApp1 }

/-- Test fixture: a delete request carrying the unregistered Pod. -/
def reqDeleteOther : Request := { operation := .delete, decodedPod := some podOther }

/-- Test fixture: an update request carrying the example Pod. -/
def reqUpdateApp1 : Request := { operation := .update, decodedPod := some podApp1 }

/-- Test fixture: a create request carrying the Pod without the annotation. -/
def reqCreatePlain : Request := { operation := .create, decodedPod := some podPlain }

/-- Test fixture: a store with no CMState, the template present, and writes
that succeed. -/
def storeEmptyState : Store :=
  { getCMState := fun _ _ => .notFound "cmstates.cache.spices.dev not found"
    getCMTemplate := fun _ => .found tmplFooBar
    createCMState := fun _ => none
    patchCMState := fun _ => none }

/-- Test fixture: a store holding `stateApp1` and the template, writes
succeed. -/
def storeFoundState : Store :=
  { getCMState := fun _ _ => .found stateApp1
    getCMTemplate := fun _ => .found tmplFooBar
    createCMState := fun _ => none
    patchCMState := fun _ => none }

/-- Test fixture: a store with no CMState where Create fails with `boom`. -/
def storeCreateFails : Store :=
  { getCMState := fun _ _ => .notFound "cmstates.cache.spices.dev not found"
    getCMTemplate := fun _ => .found tmplFooBar
    createCMState := fun _ => some "boom"
    patchCMState := fun _ => none }

/-- Test fixture: a store holding `stateApp1` where Patch fails with
`patch boom`. -/
def storePatchFails : Store :=
  { getCMState := fun _ _ => .found stateApp1
    getCMTemplate := fun _ => .found tmplFooBar
    createCMState := fun _ => none
    patchCMState := fun _ => some "patch boom" }

/-- Test fixture: a store where the template lookup itself is NotFound. -/
def storeTemplateMissing : Store :=
  { getCMState := fun _ _ => .notFound "cmstates.cache.spices.dev not found"
    getCMTemplate := fun _ => .notFound "cmtemplates.cache.spices.dev not found"
    createCMState := fun _ => none
    patchCMState := fun _ => none }

/-! Helper lemmas about characters, strings and `findIndex`. -/

theorem charOfNat_toNat {n : Nat} (h : n < 55296) : (Char.ofNat n).toNat = n := by
  have hv : n.isValidChar := Or.inl h
  simp only [Char.ofNat, dif_pos hv, Char.ofNatAux, Char.toNat, UInt32.toNat, BitVec.toNat_ofNatLt]

theorem toNat_underscore : ('_' : Char).toNat = 95 := by decide

theorem toLower_of_not_upper {c : Char} (h : ¬(65 ≤ c.toNat ∧ c.toNat ≤ 90)) :
    Char.toLower c = c := by
  simp only [Char.toLower]
  rw [if_neg (by omega)]

theorem toLower_toNat_of_upper {c : Char} (h : 65 ≤ c.toNat ∧ c.toNat ≤ 90) :
    (Char.toLower c).toNat = c.toNat + 32 := by
  simp only [Char.toLower]
  rw [if_pos (by omega)]
  exact charOfNat_toNat (by omega)

theorem replChar_of_ne {c : Char} (h : c ≠ '_') : replChar c = c := by
  simp [replChar, h]

theorem ne_underscore_of_toNat {c : Char} (h : c.toNat ≠ 95) : c ≠ '_' := by
  intro he; subst he; exact h toNat_underscore

/-- Lowering after replacing underscores is invariant under first lowering and
replacing the argument: the character-level core of the naming claim. -/
theorem lower_repl_norm (c : Char) :
    Char.toLower (replChar c) = Char.toLower (replChar (replChar (Char.toLower c))) := by
  by_cases hu : 65 ≤ c.toNat ∧ c.toNat ≤ 90
  · have h1 : replChar c = c := replChar_of_ne (ne_underscore_of_toNat (by omega))
    have hl : (Char.toLower c).toNat = c.toNat + 32 := toLower_toNat_of_upper hu
    have h2 : replChar (Char.toLower c) = Char.toLower c :=
      replChar_of_ne (ne_underscore_of_toNat (by omega))
    have h3 : Char.toLower (Char.toLower c) = Char.toLower c :=
      toLower_of_not_upper (by omega)
    rw [h1, h2, h2, h3]
  · have h0 : Char.toLower c = c := toLower_of_not_upper hu
    rw [h0]
    by_cases hc : c = '_'
    · subst hc; decide
    · rw [replChar_of_ne hc, replChar_of_ne hc]

theorem patternChar_of_class {c : Char}
    (h : (65 ≤ c.toNat ∧ c.toNat ≤ 90) ∨ (97 ≤ c.toNat ∧ c.toNat ≤ 122) ∨
         (48 ≤ c.toNat ∧ c.toNat ≤ 57) ∨ c = '_' ∨ c = '-') :
    isPatternChar (Char.toLower (replChar c)) = true := by
  rcases h with h | h | h | h | h
  · rw [replChar_of_ne (ne_underscore_of_toNat (by omega))]
    have := toLower_toNat_of_upper h
    simp [isPatternChar]
    omega
  · rw [replChar_of_ne (ne_underscore_of_toNat (by omega)),
      toLower_of_not_upper (by omega)]
    simp [isPatternChar]
    omega
  · rw [replChar_of_ne (ne_underscore_of_toNat (by omega)),
      toLower_of_not_upper (by omega)]
    simp [isPatternChar]
    omega
  · subst h; decide
  · subst h; decide

theorem data_ne_nil_of_ne_empty {T : String} (h : T ≠ "") : T.data ≠ [] := by
  intro hd
  exact h (String.ext hd)

/-- `findIndexAux` started at `i` and answering `k` found the searched name at
list position `k - i`. -/
theorem findIndexAux_get (name : String) :
    ∀ (l : List CMAudience) (i k : Nat), findIndexAux name l i = Int.ofNat k →
      i ≤ k ∧ (l.get? (k - i)).map CMAudience.name = some name := by
  intro l
  induction l with
  | nil => intro i k h; simp [findIndexAux] at h
  | cons aud rest ih =>
    intro i k h
    by_cases hn : aud.name = name
    · rw [findIndexAux, if_pos hn] at h
      have hik : i = k := Int.ofNat.inj h
      subst hik
      simp [hn]
    · rw [findIndexAux, if_neg hn] at h
      obtain ⟨hle, hget⟩ := ih (i + 1) k h
      refine ⟨by omega, ?_⟩
      have : k - i = (k - (i + 1)) + 1 := by omega
      rw [this, List.get?_cons_succ]
      exact hget

/-- `findIndex` answering `k ≥ 0` means the entry at position `k` carries the
searched name. -/
theorem findIndex_get {l : List CMAudience} {name : String} {k : Nat}
    (h : findIndex l name = Int.ofNat k) :
    (l.get? k).map CMAudience.name = some name := by
  have h2 := findIndexAux_get name l 0 k h
  simpa using h2.2

/-- C8: an admission request whose Pod has no template annotation (key absent
or value empty) is allowed with no store read or write: `handleInner` answers
the fall-through Allowed response with an empty effect list. -/
theorem claim8_no_annotation_allowed (store : Store) (req : Request) (pod : Pod)
    (hdec : req.decodedPod = some pod)
    (hann : annGet pod.annotations "cache.spices.dev/cmtemplate" = "") :
    handleInner store req =
      ((some (.allowed "skipping cmstate check due to missing annotation"), none), []) := by
  simp [handleInner, hdec, hann]

theorem claim8_witness :
    handleInner storeEmptyState reqCreatePlain =
      ((some (.allowed "skipping cmstate check due to missing annotation"), none), []) :=
  claim8_no_annotation_allowed storeEmptyState reqCreatePlain podPlain rfl rfl

/-- C10: a request whose Pod carries a non-empty template annotation but whose
operation is neither Create nor Delete performs the two resolver reads, no
write, and falls through to the Allowed response with the missing-annotation
reason. -/
theorem claim10_other_operation_falls_through (store : Store) (req : Request) (pod : Pod)
    (tAnn : String) (tmpl : CMTemplate)
    (hdec : req.decodedPod = some pod)
    (htA : annGet pod.annotations "cache.spices.dev/cmtemplate" = tAnn)
    (hne : tAnn ≠ "")
    (hop1 : req.operation ≠ .create) (hop2 : req.operation ≠ .delete)
    (hstate : ∀ e, store.getCMState pod.nspace (generateName tAnn) ≠ .errored e)
    (htmpl : store.getCMTemplate tAnn = .found tmpl) :
    handleInner store req =
      ((some (.allowed "skipping cmstate check due to missing annotation"), none),
       [.getState pod.nspace (generateName tAnn), .getTemplate tAnn]) := by
  cases hres : store.getCMState pod.nspace (generateName tAnn) with
  | found st => simp [handleInner, hdec, htA, hne, hres, htmpl, hop1, hop2]
  | notFound m => simp [handleInner, hdec, htA, hne, hres, htmpl, hop1, hop2]
  | errored e => exact absurd hres (hstate e)

theorem claim10_witness :
    handleInner storeEmptyState reqUpdateApp1 =
      ((some (.allowed "skipping cmstate check due to missing annotation"), none),
       [.getState "ns" (generateName "Foo_Bar"), .getTemplate "Foo_Bar"]) :=
  claim10_other_operation_falls_through storeEmptyState reqUpdateApp1 podApp1 "Foo_Bar"
    tmplFooBar rfl rfl (by decide) (by decide) (by decide) (fun e => by simp [storeEmptyState]) rfl

/-- C9: a delete request finding no state resource, and a delete request whose
Pod's identifying name is not in the audience, are both allowed with no store
write: the effect list holds only the two resolver reads. -/
theorem claim9_delete_noop_allows (store : Store) (req : Request) (pod : Pod)
    (tAnn : String) (tmpl : CMTemplate)
    (hdec : req.decodedPod = some pod)
    (htA : annGet pod.annotations "cache.spices.dev/cmtemplate" = tAnn)
    (hne : tAnn ≠ "")
    (hop : req.operation = .delete)
    (htmpl : store.getCMTemplate tAnn = .found tmpl) :
    (∀ m, store.getCMState pod.nspace (generateName tAnn) = .notFound m →
       handleInner store req =
         ((some (.allowed "skipping cmstate patch due to missing cmstate"), none),
          [.getState pod.nspace (generateName tAnn), .getTemplate tAnn]))
    ∧ (∀ st, store.getCMState pod.nspace (generateName tAnn) = .found st → st.name ≠ "" →
        findIndex st.audience (deletePodName pod) = -1 →
        handleInner store req =
          ((some (.allowed "skipping cmstate patch due to pod not in audience"), none),
           [.getState pod.nspace (generateName tAnn), .getTemplate tAnn])) := by
  constructor
  · intro m hres
    simp [handleInner, hdec, htA, hne, hres, htmpl, hop, handlePodDelete, emptyCMState]
  · intro st hres hname hidx
    simp [handleInner, hdec, htA, hne, hres, htmpl, hop, handlePodDelete, hname, hidx]

theorem claim9_witness :
    handleInner storeEmptyState reqDeleteApp1 =
      ((some (.allowed "skipping cmstate patch due to missing cmstate"), none),
       [.getState "ns" (generateName "Foo_Bar"), .getTemplate "Foo_Bar"])
    ∧ handleInner storeFoundState reqDeleteOther =
      ((some (.allowed "skipping cmstate patch due to pod not in audience"), none),
       [.getState "ns" (generateName "Foo_Bar"), .getTemplate "Foo_Bar"]) :=
  ⟨(claim9_delete_noop_allows storeEmptyState reqDeleteApp1 podApp1 "Foo_Bar" tmplFooBar
      rfl rfl (by decide) rfl rfl).1 "cmstates.cache.spices.dev not found" rfl,
   (claim9_delete_noop_allows storeFoundState reqDeleteOther podOther "Foo_Bar" tmplFooBar
      rfl rfl (by decide) rfl rfl).2 stateApp1 rfl (by decide) (by decide)⟩

/-- C7: NotFound when fetching the CMState is tolerated — processing continues
into the operation handler with the zero-value (empty) CMState — while
NotFound when fetching the CMTemplate stops processing after the two reads and
is surfaced by `Handle` as an internal error (Errored 500). -/
theorem claim7_not_found_asymmetry (store : Store) (req : Request) (pod : Pod)
    (tAnn : String)
    (hdec : req.decodedPod = some pod)
    (htA : annGet pod.annotations "cache.spices.dev/cmtemplate" = tAnn)
    (hne : tAnn ≠ "") :
    (∀ m tmpl, store.getCMState pod.nspace (generateName tAnn) = .notFound m →
       store.getCMTemplate tAnn = .found tmpl → req.operation = .create →
       handleInner store req =
         ((handlePodCreate store req emptyCMState tmpl pod).1,
          [.getState pod.nspace (generateName tAnn), .getTemplate tAnn] ++
            (handlePodCreate store req emptyCMState tmpl pod).2))
    ∧ (∀ m tmpl, store.getCMState pod.nspace (generateName tAnn) = .notFound m →
       store.getCMTemplate tAnn = .found tmpl → req.operation = .delete →
       handleInner store req =
         ((handlePodDelete store emptyCMState pod).1,
          [.getState pod.nspace (generateName tAnn), .getTemplate tAnn] ++
            (handlePodDelete store emptyCMState pod).2))
    ∧ (∀ m, (∀ e, store.getCMState pod.nspace (generateName tAnn) ≠ .errored e) →
       store.getCMTemplate tAnn = .notFound m →
       handleInner store req =
         ((none, some (wrap "fetching cmtemplate has resulted in an error" m)),
          [.getState pod.nspace (generateName tAnn), .getTemplate tAnn])
       ∧ Handle store req = .errored 500 (wrap "fetching cmtemplate has resulted in an error" m)) := by
  refine ⟨?_, ?_, ?_⟩
  · intro m tmpl hres htmpl hop
    simp [handleInner, hdec, htA, hne, hres, htmpl, hop]
  · intro m tmpl hres htmpl hop
    simp [handleInner, hdec, htA, hne, hres, htmpl, hop]
  · intro m hsterr htmpl
    have hinner : handleInner store req =
        ((none, some (wrap "fetching cmtemplate has resulted in an error" m)),
         [.getState pod.nspace (generateName tAnn), .getTemplate tAnn]) := by
      cases hres : store.getCMState pod.nspace (generateName tAnn) with
      | found st => simp [handleInner, hdec, htA, hne, hres, htmpl]
      | notFound m2 => simp [handleInner, hdec, htA, hne, hres, htmpl]
      | errored e => exact absurd hres (hsterr e)
    exact ⟨hinner, by simp [Handle, hinner]⟩

theorem claim7_witness :
    handleInner storeEmptyState reqCreateApp1 =
      ((handlePodCreate storeEmptyState reqCreateApp1 emptyCMState tmplFooBar podApp1).1,
       [.getState "ns" (generateName "Foo_Bar"), .getTemplate "Foo_Bar"] ++
         (handlePodCreate storeEmptyState reqCreateApp1 emptyCMState tmplFooBar podApp1).2)
    ∧ Handle storeTemplateMissing reqCreateApp1 =
        .errored 500 (wrap "fetching cmtemplate has resulted in an error"
          "cmtemplates.cache.spices.dev not found") :=
  ⟨(claim7_not_found_asymmetry storeEmptyState reqCreateApp1 podApp1 "Foo_Bar"
      rfl rfl (by decide)).1 "cmstates.cache.spices.dev not found" tmplFooBar rfl rfl rfl,
   ((claim7_not_found_asymmetry storeTemplateMissing reqCreateApp1 podApp1 "Foo_Bar"
      rfl rfl (by decide)).2.2 "cmtemplates.cache.spices.dev not found"
      (fun e => by simp [storeTemplateMissing]) rfl).2⟩

/-- C3: a create request with a non-empty template annotation and no existing
state persists exactly one new CMState whose name is the derived name,
namespace the Pod's, labels the Pod's annotation values at the template's
replace-set keys, audience the single entry `Pod`/`podName` (name, else
generate-name), and templateRef the template's name; the response is the
allowed patch of the Pod whose tracking annotation now holds that name. -/
theorem claim3_create_constructs_cmstate (store : Store) (req : Request) (pod : Pod)
    (tAnn m : String) (tmpl : CMTemplate)
    (hdec : req.decodedPod = some pod)
    (htA : annGet pod.annotations "cache.spices.dev/cmtemplate" = tAnn)
    (hne : tAnn ≠ "")
    (hop : req.operation = .create)
    (hres : store.getCMState pod.nspace (generateName tAnn) = .notFound m)
    (htmpl : store.getCMTemplate tAnn = .found tmpl)
    (hok : store.createCMState (generateCMState tmpl pod) = none) :
    handleInner store req =
      ((some (.patchFromRaw req.objectRaw
          { pod with annotations := annSet pod.annotations "vault.hashicorp.com/agent-configmap" (generateName tmpl.name) }), none),
       [.getState pod.nspace (generateName tAnn), .getTemplate tAnn,
        .createState
          { apiVersion := "cache.spices.dev/v1alpha1"
            kind := "CMState"
            name := generateName tmpl.name
            nspace := pod.nspace
            labels := tmpl.annotationReplace.map (fun kv => (kv.1, annGet pod.annotations kv.1))
            audience := [{ kind := "Pod", name := if pod.name = "" then pod.generateName else pod.name }]
            cmTemplate := tmpl.name }]) := by
  have hinner : handleInner store req =
      ((some (.patchFromRaw req.objectRaw
          { pod with annotations := annSet pod.annotations "vault.hashicorp.com/agent-configmap" (generateCMState tmpl pod).name }), none),
       [.getState pod.nspace (generateName tAnn), .getTemplate tAnn,
        .createState (generateCMState tmpl pod)]) := by
    simp [handleInner, hdec, htA, hne, hres, htmpl, hop, handlePodCreate, emptyCMState, hok]
  rw [hinner]
  simp [generateCMState]

theorem claim3_witness :
    handleInner storeEmptyState reqCreateApp1 =
      ((some (.patchFromRaw "rawApp1"
          { name := "app-1", generateName := "", nspace := "ns",
            annotations := [("cache.spices.dev/cmtemplate", "Foo_Bar"),
              ("vault.hashicorp.com/agent-configmap", "cmstate-foo-bar")] }), none),
       [.getState "ns" "cmstate-foo-bar", .getTemplate "Foo_Bar",
        .createState
          { apiVersion := "cache.spices.dev/v1alpha1"
            kind := "CMState"
            name := "cmstate-foo-bar"
            nspace := "ns"
            labels := []
            audience := [{ kind := "Pod", name := "app-1" }]
            cmTemplate := "Foo_Bar" }]) :=
  (claim3_create_constructs_cmstate storeEmptyState reqCreateApp1 podApp1 "Foo_Bar"
      "cmstates.cache.spices.dev not found" tmplFooBar rfl rfl (by decide) rfl rfl rfl
      rfl).trans (by decide)

/-- C5: a create request finding a pre-existing state issues no write at all
(no create, and no audience append), yet still sets the tracking annotation on
the Pod to the existing resource's name and answers the allowed patch response
built from the original raw object and the mutated Pod. -/
theorem claim5_existing_state_no_write (store : Store) (req : Request) (pod : Pod)
    (tAnn : String) (tmpl : CMTemplate) (st : CMState)
    (hdec : req.decodedPod = some pod)
    (htA : annGet pod.annotations "cache.spices.dev/cmtemplate" = tAnn)
    (hne : tAnn ≠ "")
    (hop : req.operation = .create)
    (hres : store.getCMState pod.nspace (generateName tAnn) = .found st)
    (hname : st.name ≠ "")
    (htmpl : store.getCMTemplate tAnn = .found tmpl) :
    handleInner store req =
      ((some (.patchFromRaw req.objectRaw
          { pod with annotations := annSet pod.annotations "vault.hashicorp.com/agent-configmap" st.name }), none),
       [.getState pod.nspace (generateName tAnn), .getTemplate tAnn])
    ∧ (handleInner store req).2.filter Effect.isWrite = []
    ∧ (∀ r, (handleInner store req).1.1 = some r → r.isAllowed = true) := by
  have hmain : handleInner store req =
      ((some (.patchFromRaw req.objectRaw
          { pod with annotations := annSet pod.annotations "vault.hashicorp.com/agent-configmap" st.name }), none),
       [.getState pod.nspace (generateName tAnn), .getTemplate tAnn]) := by
    simp [handleInner, hdec, htA, hne, hres, htmpl, hop, handlePodCreate, hname]
  refine ⟨hmain, ?_, ?_⟩
  · rw [hmain]
    rfl
  · intro r hr
    rw [hmain] at hr
    cases hr
    rfl

theorem claim5_witness :
    handleInner storeFoundState reqCreateApp1 =
      ((some (.patchFromRaw "rawApp1"
          { name := "app-1", generateName := "", nspace := "ns",
            annotations := [("cache.spices.dev/cmtemplate", "Foo_Bar"),
              ("vault.hashicorp.com/agent-configmap", "cmstate-foo-bar")] }), none),
       [.getState "ns" "cmstate-foo-bar", .getTemplate "Foo_Bar"]) :=
  ((claim5_existing_state_no_write storeFoundState reqCreateApp1 podApp1 "Foo_Bar"
      tmplFooBar stateApp1 rfl rfl (by decide) rfl rfl (by decide) rfl).1).trans (by decide)

/-- C6: a delete request whose searched name is found at position `k` of the
audience patches the state resource with exactly that entry removed (take `k`
++ drop `k+1`, i.e. `eraseIdx k` — all other entries kept in order); the
entry at `k` carried the searched name; on patch success the response is the
plain Allowed with no object mutation, and the only write ever issued is that
one patch (the resource is never deleted). -/
theorem claim6_delete_removes_entry (store : Store) (req : Request) (pod : Pod)
    (tAnn : String) (tmpl : CMTemplate) (st : CMState) (k : Nat)
    (hdec : req.decodedPod = some pod)
    (htA : annGet pod.annotations "cache.spices.dev/cmtemplate" = tAnn)
    (hne : tAnn ≠ "")
    (hop : req.operation = .delete)
    (hres : store.getCMState pod.nspace (generateName tAnn) = .found st)
    (hname : st.name ≠ "")
    (htmpl : store.getCMTemplate tAnn = .found tmpl)
    (hidx : findIndex st.audience (deletePodName pod) = Int.ofNat k)
    (hok : store.patchCMState
      { st with audience := st.audience.take k ++ st.audience.drop (k + 1) } = none) :
    handleInner store req =
      ((some (.allowed "cmstate has been patched, no need to mutate pod"), none),
       [.getState pod.nspace (generateName tAnn), .getTemplate tAnn,
        .patchState { st with audience := st.audience.take k ++ st.audience.drop (k + 1) }])
    ∧ (st.audience.get? k).map CMAudience.name = some (deletePodName pod)
    ∧ st.audience.take k ++ st.audience.drop (k + 1) = st.audience.eraseIdx k := by
  have hneq : Int.ofNat k ≠ -1 := by
    show (k : Int) ≠ -1
    omega
  refine ⟨?_, findIndex_get hidx, (List.eraseIdx_eq_take_drop_succ st.audience k).symm⟩
  simp [handleInner, hdec, htA, hne, hres, htmpl, hop, handlePodDelete, hname, hidx, hneq, hok]

theorem claim6_witness :
    handleInner storeFoundState reqDeleteApp1 =
      ((some (.allowed "cmstate has been patched, no need to mutate pod"), none),
       [.getState "ns" "cmstate-foo-bar", .getTemplate "Foo_Bar",
        .patchState { name := "cmstate-foo-bar", nspace := "ns", audience := [], cmTemplate := "Foo_Bar" }]) :=
  ((claim6_delete_removes_entry storeFoundState reqDeleteApp1 podApp1 "Foo_Bar" tmplFooBar
      stateApp1 0 rfl rfl (by decide) rfl rfl (by decide) rfl (by decide) rfl).1).trans
    (by decide)

/-- C2 (counterexample): a Pod named `app-1` with generate-name `app-` whose
name is in the audience: the delete path searches for the generate-name, not
the name, so it answers the not-in-audience Allowed and issues no patch —
the claim would have entry `app-1` found and removed. -/
theorem claim2_counterexample :
    deletePodName { name := "app-1", generateName := "app-", nspace := "ns", annotations := [] } = "app-"
    ∧ handlePodDelete storeFoundState stateApp1
        { name := "app-1", generateName := "app-", nspace := "ns", annotations := [] } =
      ((some (.allowed "skipping cmstate patch due to pod not in audience"), none), []) := by
  decide

/-- C2 (amended): on the delete path the generate-name is used whenever it is
non-empty — it takes precedence over the name — and the name is used only
when the generate-name is empty. -/
theorem claim2_generate_name_precedence (pod : Pod) :
    (pod.generateName ≠ "" → deletePodName pod = pod.generateName)
    ∧ (pod.generateName = "" → deletePodName pod = pod.name) := by
  constructor
  · intro h
    simp [deletePodName, h]
  · intro h
    simp [deletePodName, h]

theorem claim2_witness :
    deletePodName podApp1 = "app-1"
    ∧ deletePodName { name := "x", generateName := "y-", nspace := "", annotations := [] } = "y-" :=
  ⟨(claim2_generate_name_precedence podApp1).2 rfl,
   (claim2_generate_name_precedence
      { name := "x", generateName := "y-", nspace := "", annotations := [] }).1 (by decide)⟩

/-- C4 (counterexample): the derived name need not match `cmstate-[a-z0-9-]+`:
for the template name `!` it is `cmstate-!`, which fails the pattern. -/
theorem claim4_counterexample :
    generateName "!" = "cmstate-!" ∧ matchesPattern (generateName "!") = false := by
  decide

/-- C4 (amended): for every template name `T`,
`generateName T = generateName (lower(T) with underscores replaced)`; and for
every non-empty `T` whose characters are ASCII letters, digits, underscores or
hyphens, the derived name matches `cmstate-[a-z0-9-]+`. -/
theorem claim4_normalization_and_pattern :
    (∀ T : String, generateName T = generateName (stringsReplaceAll (stringsToLower T)))
    ∧ (∀ T : String, T ≠ "" →
        (∀ c ∈ T.data, (65 ≤ c.toNat ∧ c.toNat ≤ 90) ∨ (97 ≤ c.toNat ∧ c.toNat ≤ 122) ∨
          (48 ≤ c.toNat ∧ c.toNat ≤ 57) ∨ c = '_' ∨ c = '-') →
        matchesPattern (generateName T) = true) := by
  constructor
  · intro T
    apply String.ext
    simp only [generateName, stringsReplaceAll, stringsToLower, String.data_append,
      List.map_append, List.map_map]
    congr 1
    apply List.map_congr_left
    intro c _
    exact lower_repl_norm c
  · intro T h0 hcl
    have hdata : (generateName T).data =
        "cmstate-".data ++ T.data.map (fun c => Char.toLower (replChar c)) := by
      simp only [generateName, stringsReplaceAll, stringsToLower, String.data_append,
        List.map_append, List.map_map]
      congr 1
    have hlen : ("cmstate-".data).length = 8 := by decide
    have hne : T.data ≠ [] := data_ne_nil_of_ne_empty h0
    rw [matchesPattern, hdata]
    have htake : ("cmstate-".data ++ T.data.map (fun c => Char.toLower (replChar c))).take 8 =
        "cmstate-".data := by
      rw [← hlen, List.take_left]
    have hdrop : ("cmstate-".data ++ T.data.map (fun c => Char.toLower (replChar c))).drop 8 =
        T.data.map (fun c => Char.toLower (replChar c)) := by
      rw [← hlen, List.drop_left]
    have hall : (T.data.map (fun c => Char.toLower (replChar c))).all isPatternChar = true := by
      rw [List.all_map]
      apply List.all_eq_true.mpr
      intro c hc
      exact patternChar_of_class (hcl c hc)
    rw [htake, hdrop, hall]
    have hpos : 0 < T.data.length := List.length_pos.mpr hne
    simp only [List.length_append, List.length_map, hlen, beq_self_eq_true,
      Bool.true_and, Bool.and_true, decide_eq_true_eq]
    omega

theorem claim4_witness :
    generateName "Foo_Bar" = generateName (stringsReplaceAll (stringsToLower "Foo_Bar"))
    ∧ matchesPattern (generateName "Foo_Bar") = true :=
  ⟨claim4_normalization_and_pattern.1 "Foo_Bar",
   claim4_normalization_and_pattern.2 "Foo_Bar" (by decide) (by decide)⟩

/-- C1: when the Create of the new CMState fails (create path) or the Patch of
the audience fails (delete path), `handlePodCreate`/`handlePodDelete` return
a Denied response together with a non-nil error, so `Handle` discards the
denial and answers `Errored(500, err)` — an internal-error response, not a
denial — carrying the store error text as its message. -/
theorem claim1_write_error_internal_error :
    (handleInner storeCreateFails reqCreateApp1).1 =
      (some (.denied "creating cmstate has resulted in an error"), some "boom")
    ∧ Handle storeCreateFails reqCreateApp1 = .errored 500 "boom"
    ∧ (Handle storeCreateFails reqCreateApp1).isDenied = false
    ∧ (Handle storeCreateFails reqCreateApp1).isAllowed = false
    ∧ (handleInner storePatchFails reqDeleteApp1).1 =
      (some (.denied "patching cmstate has resulted in an error"), some "patch boom")
    ∧ Handle storePatchFails reqDeleteApp1 = .errored 500 "patch boom"
    ∧ (Handle storePatchFails reqDeleteApp1).isDenied = false
    ∧ (Handle storePatchFails reqDeleteApp1).isAllowed = false := by
  decide
